import Mathlib

/-!
Shallow embedding of the weather app in src/index.tsx: the line-based
markdown block renderer, the grounding-source extraction, and the query
state machine driven by fetchWeather and handleLocationClick.
-/

namespace Weather

/-- Whitespace characters recognised by the JS regex class backslash-s and by
String.prototype.trim on the ASCII range (used at index.tsx lines 101, 102, 105). -/
def jsIsSpace (c : Char) : Bool :=
  c = ' ' || c = '\t' || c = '\n' || c = '\r' || c = '\x0b' || c = '\x0c'

/-- Model of line.replace with the global pattern of two asterisks
(index.tsx lines 98, 102, 107): each left-most pair of adjacent asterisks
is removed, scanning left to right without overlap. -/
def removeBold : List Char → List Char
  | [] => []
  | [c] => [c]
  | c :: d :: rest =>
    if c = '*' && d = '*' then removeBold rest
    else c :: removeBold (d :: rest)

/-- Model of line.replace with the global hash pattern (index.tsx line 98):
every hash character is removed. -/
def removeHash (l : List Char) : List Char := l.filter (fun c => !(c = '#'))

/-- Model of line.replace with the anchored bullet pattern (index.tsx line
102). The regex is anchored at the start of the untrimmed line, so it strips
one bullet character and the whitespace after it only when the bullet is the
first character of the line. -/
def stripBullet (l : List Char) : List Char :=
  match l with
  | c :: rest => if c = '*' || c = '-' then rest.dropWhile jsIsSpace else l
  | [] => l

/-- Model of line.startsWith applied to a double asterisk (index.tsx line 97). -/
def startsDoubleStar (l : List Char) : Bool :=
  match l with
  | c :: d :: _ => c = '*' && d = '*'
  | _ => false

/-- Model of line.startsWith applied to a hash (index.tsx line 97). -/
def startsHash (l : List Char) : Bool :=
  match l with
  | c :: _ => c = '#'
  | [] => false

/-- Model of line.trim().startsWith for the two bullet markers (index.tsx
line 101). -/
def bulletAfterTrim (l : List Char) : Bool :=
  match l.dropWhile jsIsSpace with
  | c :: _ => c = '*' || c = '-'
  | [] => false

/-- Occurrence count of a character in a line, used to state which
characters the stripping operations preserve. -/
def countCh (c : Char) : List Char → Nat
  | [] => 0
  | d :: rest => (if d = c then 1 else 0) + countCh c rest

/-- A line with no two adjacent asterisks: the bold-stripping pattern has
no match in such a line. -/
def noDouble : List Char → Bool
  | [] => true
  | [_] => true
  | c :: d :: rest => !(c = '*' && d = '*') && noDouble (d :: rest)

/-- Model of the test that line.trim() is empty (index.tsx line 105). -/
def isBlankLine (l : List Char) : Bool := (l.dropWhile jsIsSpace).isEmpty

/-- Render blocks, one per physical line (index.tsx lines 95-108): the
heading, list item, blank and paragraph shapes produced by renderMarkdown. -/
inductive Block where
  | heading (content : List Char)
  | listItem (content : List Char)
  | blank
  | para (content : List Char)
deriving DecidableEq

/-- Per-line classification of renderMarkdown (index.tsx lines 95-108),
first match wins: heading, then list item, then blank, then paragraph. -/
def classifyLine (l : List Char) : Block :=
  if startsDoubleStar l || startsHash l then Block.heading (removeHash (removeBold l))
  else if bulletAfterTrim l then Block.listItem (removeBold (stripBullet l))
  else if isBlankLine l then Block.blank
  else Block.para (removeBold l)

/-- Model of text.split on the newline character (index.tsx line 94):
always yields at least one line, and a trailing newline yields a final
empty line, as in JS. -/
def splitOnNl : List Char → List (List Char)
  | [] => [[]]
  | '\n' :: rest => [] :: splitOnNl rest
  | c :: rest =>
    match splitOnNl rest with
    | [] => [[c]]
    | h :: t => (c :: h) :: t

/-- renderMarkdown (index.tsx lines 91-109): split into lines, classify each. -/
def renderMarkdown (text : List Char) : List Block :=
  (splitOnNl text).map classifyLine

/-- A web citation record inside a grounding chunk (index.tsx lines 178-187):
a URL and an optional title. -/
structure WebInfo where
  uri : String
  title : Option String
deriving DecidableEq

/-- A raw grounding chunk from the service response (index.tsx line 53):
the web field may be absent. -/
structure GroundingChunk where
  web : Option WebInfo
deriving DecidableEq

/-- A rendered grounding source link (index.tsx lines 180-188): the href and
the displayed title text. -/
structure RenderedSource where
  uri : String
  displayTitle : String
deriving DecidableEq

/-- Model of the scheme-separator scan of a URL parser: drop everything up to
and including the first colon-slash-slash. -/
def schemeRest : List Char → List Char
  | [] => []
  | ':' :: '/' :: '/' :: rest => rest
  | _ :: rest => schemeRest rest

/-- The authority component of a URL: the characters after the scheme
separator up to the first slash, question mark or hash. -/
def authorityOf (l : List Char) : List Char :=
  (schemeRest l).takeWhile (fun c => !(c = '/' || c = '?' || c = '#'))

/-- Drop the userinfo part of an authority: the host starts after the last
at-sign when one is present. -/
def dropUserinfo (a : List Char) : List Char :=
  if a.contains '@' then (a.reverse.takeWhile (fun c => !(c = '@'))).reverse else a

/-- Drop the port part of an authority: keep the characters before the colon. -/
def dropPort (a : List Char) : List Char := a.takeWhile (fun c => !(c = ':'))

/-- Model of the hostname read off new URL(uri) (index.tsx line 187):
authority of the URL, userinfo and port removed, lower-cased. -/
def hostname (uri : String) : String :=
  String.mk ((dropPort (dropUserinfo (authorityOf uri.toList))).map Char.toLower)

/-- The displayed title of a web record (index.tsx line 187): the title when
it is present and truthy in JS, i.e. non-empty, otherwise the hostname of
the URL. -/
def displayTitleOf (w : WebInfo) : String :=
  match w.title with
  | some t => if t = "" then hostname w.uri else t
  | none => hostname w.uri

/-- One step of the sources.map callback (index.tsx lines 177-192): a chunk
with a web field renders to a link, a chunk without one renders to null. -/
def renderSource (c : GroundingChunk) : Option RenderedSource :=
  match c.web with
  | some w => some { uri := w.uri, displayTitle := displayTitleOf w }
  | none => none

/-- The rendered sequence of source links (index.tsx lines 177-192): the map
over the chunks with the null entries dropped, as React drops them. -/
def renderedSources (chunks : List GroundingChunk) : List RenderedSource :=
  (chunks.map renderSource).reduceOption

/-- The display title exactly as claim C1 words it, for comparison with the
code path: the chunk title whenever the title field is present, otherwise
the hostname of the URL. -/
def specDisplayTitle (w : WebInfo) : String :=
  match w.title with
  | some t => t
  | none => hostname w.uri

/-- The source sequence exactly as claim C1 words it: the chunks carrying a
web link, in input order, titled by specDisplayTitle. -/
def specSources : List GroundingChunk → List RenderedSource
  | [] => []
  | c :: rest =>
    match c.web with
    | some w => { uri := w.uri, displayTitle := specDisplayTitle w } :: specSources rest
    | none => specSources rest

/-- The display title as claim C1 reads after amendment: the chunk title when
it is present and non-empty, otherwise the hostname of the URL. -/
def amendedDisplayTitle (w : WebInfo) : String :=
  match w.title with
  | some t => if t = "" then hostname w.uri else t
  | none => hostname w.uri

/-- The source sequence as claim C1 reads after amendment: the chunks
carrying a web link, in input order, titled by amendedDisplayTitle. -/
def amendedSources : List GroundingChunk → List RenderedSource
  | [] => []
  | c :: rest =>
    match c.web with
    | some w => { uri := w.uri, displayTitle := amendedDisplayTitle w } :: amendedSources rest
    | none => amendedSources rest

/-- The fixed placeholder stored for an empty or absent answer text
(index.tsx line 55). -/
def noDataMsg : String := "No weather data found."

/-- The fallback error message of a failed fetch (index.tsx line 59). -/
def fetchFallbackMsg : String := "Failed to fetch weather data. Please try again."

/-- The error message of a failed geolocation lookup (index.tsx line 82). -/
def geoFailureMsg : String := "Unable to retrieve location. Please check permissions."

/-- The error message when geolocation is unsupported (index.tsx line 86). -/
def geoUnsupportedMsg : String := "Geolocation is not supported by your browser."

/-- Model of text or the placeholder (index.tsx line 55): response.text may
be absent, and the JS or-operator also treats the empty string as falsy. -/
def normalizeText (text : Option String) : String :=
  match text with
  | some t => if t = "" then noDataMsg else t
  | none => noDataMsg

/-- Model of err.message or the fallback (index.tsx line 59): the message may
be absent, and the JS or-operator also treats the empty string as falsy. -/
def errorMessage (msg : Option String) : String :=
  match msg with
  | some m => if m = "" then fetchFallbackMsg else m
  | none => fetchFallbackMsg

/-- The component state of App (index.tsx lines 26-29): the four fields the
claims are about. The query input string is presentational and omitted. -/
structure AppState where
  weatherData : Option String
  sources : List GroundingChunk
  loading : Bool
  error : Option String
deriving DecidableEq

/-- The initial state (index.tsx lines 26-29). -/
def initState : AppState :=
  { weatherData := none, sources := [], loading := false, error := none }

/-- The atomic observable transitions of the app. A React event handler or
async continuation runs to completion and its state updates are committed
together, so each of these is one step:
fetchStart is the synchronous prefix of fetchWeather (lines 35-38);
fetchSuccess is the resolution path plus the finally clause (lines 52-56, 61);
fetchFailure is the catch path plus the finally clause (lines 59, 61);
geoRequest is the supported branch of handleLocationClick before the
geolocation callback fires (line 73);
geoSuccess is the position callback, which invokes fetchWeather (lines 75-79);
geoFailure is the geolocation error callback (lines 81-82);
geoUnsupported is the unsupported branch (line 86). -/
inductive Ev where
  | fetchStart
  | fetchSuccess (text : Option String) (chunks : List GroundingChunk)
  | fetchFailure (msg : Option String)
  | geoRequest
  | geoSuccess
  | geoFailure
  | geoUnsupported
deriving DecidableEq

/-- The state transition function, field updates read off index.tsx:
fetchStart lines 35-38; fetchSuccess lines 52-56 and 61; fetchFailure
lines 59 and 61; geoRequest line 73; geoSuccess lines 75-79 via the
synchronous prefix of fetchWeather; geoFailure lines 81-82; geoUnsupported
line 86, which touches only the error field. -/
def step (s : AppState) : Ev → AppState
  | Ev.fetchStart =>
    { s with loading := true, error := none, weatherData := none, sources := [] }
  | Ev.fetchSuccess text chunks =>
    { s with weatherData := some (normalizeText text), sources := chunks, loading := false }
  | Ev.fetchFailure msg =>
    { s with error := some (errorMessage msg), loading := false }
  | Ev.geoRequest => { s with loading := true }
  | Ev.geoSuccess =>
    { s with loading := true, error := none, weatherData := none, sources := [] }
  | Ev.geoFailure => { s with loading := false, error := some geoFailureMsg }
  | Ev.geoUnsupported => { s with error := some geoUnsupportedMsg }

/-- When an event can fire: user actions (search submit, location click)
are blocked while loading by the disabled buttons (index.tsx lines 138,
146) and by implicit form submission, and a resolution event fires only
while its request is outstanding, during which loading is set. -/
def allowed (s : AppState) : Ev → Prop
  | Ev.fetchStart => s.loading = false
  | Ev.fetchSuccess _ _ => s.loading = true
  | Ev.fetchFailure _ => s.loading = true
  | Ev.geoRequest => s.loading = false
  | Ev.geoSuccess => s.loading = true
  | Ev.geoFailure => s.loading = true
  | Ev.geoUnsupported => s.loading = false

/-- The states reachable from the initial state through allowed events. -/
inductive Reachable : AppState → Prop
  | init : Reachable initState
  | next (s : AppState) (e : Ev) : Reachable s → allowed s e → Reachable (step s e)

/-- The events of the plain fetch cycle, excluding the geolocation path. -/
def Ev.isFetch : Ev → Bool
  | Ev.fetchStart => true
  | Ev.fetchSuccess _ _ => true
  | Ev.fetchFailure _ => true
  | _ => false

/-- The states reachable using only the plain fetch cycle. -/
inductive ReachableFetch : AppState → Prop
  | init : ReachableFetch initState
  | next (s : AppState) (e : Ev) :
      ReachableFetch s → allowed s e → e.isFetch = true → ReachableFetch (step s e)

/-- The derived query status shown by the render layer (index.tsx lines
157-201): loading takes priority, then error, then the answer, else idle. -/
inductive Status where
  | idle
  | loading
  | error (msg : String)
  | success (text : String) (sources : List GroundingChunk)
deriving DecidableEq

/-- statusOf reads the render-layer branch order off index.tsx lines 157-201. -/
def statusOf (s : AppState) : Status :=
  if s.loading then Status.loading
  else
    match s.error with
    | some m => Status.error m
    | none =>
      match s.weatherData with
      | some t => Status.success t s.sources
      | none => Status.idle

/-- The state reached by submitting a query, letting it fail, then clicking
the location button in a geolocation-capable browser before the position
callback fires: the loading flag is set while the previous error message is
still stored. -/
def stBad : AppState :=
  { weatherData := none, sources := [], loading := true,
    error := some fetchFallbackMsg }

/-- A sample state in the Error status, used to instantiate theorems. -/
def stErr : AppState :=
  { weatherData := none, sources := [], loading := false, error := some "boom" }

/-- A sample idle state holding a previous answer and sources, used to
instantiate theorems. -/
def stOld : AppState :=
  { weatherData := some "old", sources := [{ web := none }], loading := false,
    error := none }

/-- Claim C7: applied to the four-line sample text, the renderer produces
exactly Heading Temperature, ListItem Sunny, Blank, Paragraph Feels nice,
one block per physical line. -/
theorem c7_example_render :
    renderMarkdown ("**Temperature**\n- Sunny\n\nFeels nice".toList) =
      [Block.heading ("Temperature".toList), Block.listItem ("Sunny".toList),
       Block.blank, Block.para ("Feels nice".toList)] := by
  decide

/-- Claim C4: starting a new query while the status is Error or Success moves
the status to Loading with the stored answer text, sources and error cleared,
in the one synchronous step that precedes any resolution event. -/
theorem c4_restart_clears (s : AppState)
    (h : (∃ m, statusOf s = Status.error m) ∨
      (∃ t src, statusOf s = Status.success t src)) :
    statusOf (step s Ev.fetchStart) = Status.loading ∧
    (step s Ev.fetchStart).weatherData = none ∧
    (step s Ev.fetchStart).sources = [] ∧
    (step s Ev.fetchStart).error = none := by
  refine ⟨?_, rfl, rfl, rfl⟩
  simp [statusOf, step]

/-- Witness for C4 at a concrete Error state. -/
theorem c4_restart_clears_witness :
    (∃ m, statusOf stErr = Status.error m) ∧
    (statusOf (step stErr Ev.fetchStart) = Status.loading ∧
    (step stErr Ev.fetchStart).weatherData = none ∧
    (step stErr Ev.fetchStart).sources = [] ∧
    (step stErr Ev.fetchStart).error = none) :=
  ⟨⟨"boom", by decide⟩,
    c4_restart_clears stErr (Or.inl ⟨"boom", by decide⟩)⟩

/-- Claim C5: a failing generation call yields status Error with a non-empty
message, the underlying message when it is available and non-empty, otherwise
the fixed fallback, and the loading flag is cleared, so the machine is in
neither Idle nor Loading after a failure. -/
theorem c5_failure_error (s : AppState) (msg : Option String) :
    statusOf (step s (Ev.fetchFailure msg)) = Status.error (errorMessage msg) ∧
    errorMessage msg ≠ "" ∧
    (step s (Ev.fetchFailure msg)).loading = false ∧
    (∀ m : String, msg = some m → m ≠ "" → errorMessage msg = m) ∧
    (msg = none → errorMessage msg = fetchFallbackMsg) := by
  refine ⟨by simp [statusOf, step], ?_, rfl, ?_, ?_⟩
  · cases msg with
    | none => decide
    | some m =>
      by_cases h : m = "" <;> simp [errorMessage, h]
      decide
  · intro m hm hne
    subst hm
    simp [errorMessage, hne]
  · intro hm
    subst hm
    rfl

/-- Witness for C5 at a concrete failure with a message and at one without. -/
theorem c5_failure_error_witness :
    statusOf (step initState (Ev.fetchFailure (some "boom"))) =
      Status.error (errorMessage (some "boom")) ∧
    errorMessage (some "boom") ≠ "" ∧
    (step initState (Ev.fetchFailure (some "boom"))).loading = false ∧
    errorMessage (some "boom") = "boom" ∧
    errorMessage none = fetchFallbackMsg :=
  ⟨(c5_failure_error initState (some "boom")).1,
    (c5_failure_error initState (some "boom")).2.1,
    (c5_failure_error initState (some "boom")).2.2.1,
    (c5_failure_error initState (some "boom")).2.2.2.1 "boom" rfl (by decide),
    (c5_failure_error initState none).2.2.2.2 rfl⟩

/-- Claim C6: a successful call with empty or absent answer text stores the
fixed non-empty placeholder, a non-empty answer text is stored unchanged, the
raw chunks are stored as sources, loading is cleared, and when no error is
pending the derived status is Success with that text. -/
theorem c6_empty_text_placeholder (s : AppState) (text : Option String)
    (chunks : List GroundingChunk) :
    (step s (Ev.fetchSuccess text chunks)).weatherData = some (normalizeText text) ∧
    (step s (Ev.fetchSuccess text chunks)).sources = chunks ∧
    (step s (Ev.fetchSuccess text chunks)).loading = false ∧
    normalizeText none = noDataMsg ∧
    normalizeText (some "") = noDataMsg ∧
    noDataMsg ≠ "" ∧
    (∀ t : String, t ≠ "" → normalizeText (some t) = t) ∧
    (s.error = none →
      statusOf (step s (Ev.fetchSuccess text chunks)) =
        Status.success (normalizeText text) chunks) := by
  refine ⟨rfl, rfl, rfl, rfl, by decide, by decide, ?_, ?_⟩
  · intro t ht
    simp [normalizeText, ht]
  · intro he
    simp [statusOf, step, he]

/-- Witness for C6 at a concrete success with non-empty text. -/
theorem c6_empty_text_placeholder_witness :
    (step initState (Ev.fetchSuccess (some "Sunny") [])).weatherData =
      some (normalizeText (some "Sunny")) ∧
    normalizeText (some "Sunny") = "Sunny" ∧
    normalizeText (some "") = noDataMsg ∧
    normalizeText none = noDataMsg ∧
    noDataMsg ≠ "" ∧
    statusOf (step initState (Ev.fetchSuccess (some "Sunny") [])) =
      Status.success (normalizeText (some "Sunny")) [] :=
  ⟨(c6_empty_text_placeholder initState (some "Sunny") []).1,
    (c6_empty_text_placeholder initState (some "Sunny") []).2.2.2.2.2.2.1
      "Sunny" (by decide),
    (c6_empty_text_placeholder initState (some "Sunny") []).2.2.2.2.1,
    (c6_empty_text_placeholder initState (some "Sunny") []).2.2.2.1,
    (c6_empty_text_placeholder initState (some "Sunny") []).2.2.2.2.2.1,
    (c6_empty_text_placeholder initState (some "Sunny") []).2.2.2.2.2.2.2 rfl⟩

/-- Claim C9: when geolocation is unsupported, the click handler only sets
the fixed error message; the loading flag, the stored answer text and the
stored sources are left unchanged, so the machine never enters Loading, and
from a non-loading state the derived status becomes Error. -/
theorem c9_geo_unsupported_frame (s : AppState) (h : s.loading = false) :
    (step s Ev.geoUnsupported).weatherData = s.weatherData ∧
    (step s Ev.geoUnsupported).sources = s.sources ∧
    (step s Ev.geoUnsupported).loading = s.loading ∧
    (step s Ev.geoUnsupported).loading = false ∧
    statusOf (step s Ev.geoUnsupported) = Status.error geoUnsupportedMsg ∧
    geoUnsupportedMsg ≠ "" := by
  refine ⟨rfl, rfl, rfl, h, ?_, by decide⟩
  simp [statusOf, step, h]

/-- Witness for C9 at a state holding a previous answer and sources. -/
theorem c9_geo_unsupported_frame_witness :
    (step stOld Ev.geoUnsupported).weatherData = some "old" ∧
    (step stOld Ev.geoUnsupported).sources = [{ web := none }] ∧
    (step stOld Ev.geoUnsupported).loading = false ∧
    statusOf (step stOld Ev.geoUnsupported) = Status.error geoUnsupportedMsg :=
  ⟨(c9_geo_unsupported_frame stOld rfl).1,
    (c9_geo_unsupported_frame stOld rfl).2.1,
    (c9_geo_unsupported_frame stOld rfl).2.2.2.1,
    (c9_geo_unsupported_frame stOld rfl).2.2.2.2.1⟩

/-- Claim C3 counterexample: the state stBad is reachable through allowed
transitions (query start, failure, then a location-button click in a
geolocation-capable browser), and in it the loading flag is set while the
error message is not null, refuting the claimed invariant. -/
theorem c3_invariant_counterexample :
    Reachable stBad ∧ stBad.loading = true ∧ stBad.error ≠ none := by
  refine ⟨?_, rfl, by decide⟩
  have h1 : Reachable (step initState Ev.fetchStart) :=
    Reachable.next initState Ev.fetchStart Reachable.init rfl
  have h2 : Reachable (step (step initState Ev.fetchStart) (Ev.fetchFailure none)) :=
    Reachable.next _ (Ev.fetchFailure none) h1 rfl
  have h3 : Reachable (step (step (step initState Ev.fetchStart)
      (Ev.fetchFailure none)) Ev.geoRequest) :=
    Reachable.next _ Ev.geoRequest h2 rfl
  have he : step (step (step initState Ev.fetchStart)
      (Ev.fetchFailure none)) Ev.geoRequest = stBad := by decide
  exact he ▸ h3

/-- Claim C3 (amended): in every state reachable through the plain fetch
cycle alone (query start, success, failure — without the location-button
path, which the counterexample shows violates the invariant), a set loading
flag implies the error message and the stored answer text are both null. -/
theorem c3_loading_excludes_results (s : AppState) (hr : ReachableFetch s) :
    s.loading = true → s.error = none ∧ s.weatherData = none := by
  induction hr with
  | init => intro h; exact absurd h (by decide)
  | next s e hr ha hf ih =>
    intro hl
    cases e with
    | fetchStart => exact ⟨rfl, rfl⟩
    | fetchSuccess t c => exact absurd hl (by simp [step])
    | fetchFailure m => exact absurd hl (by simp [step])
    | geoRequest => exact absurd hf (by decide)
    | geoSuccess => exact absurd hf (by decide)
    | geoFailure => exact absurd hf (by decide)
    | geoUnsupported => exact absurd hf (by decide)

/-- Witness for the amended C3 at the loading state reached by one query
start. -/
theorem c3_loading_excludes_results_witness :
    ReachableFetch (step initState Ev.fetchStart) ∧
    (step initState Ev.fetchStart).loading = true ∧
    ((step initState Ev.fetchStart).error = none ∧
      (step initState Ev.fetchStart).weatherData = none) :=
  ⟨ReachableFetch.next initState Ev.fetchStart ReachableFetch.init rfl rfl, rfl,
    c3_loading_excludes_results (step initState Ev.fetchStart)
      (ReachableFetch.next initState Ev.fetchStart ReachableFetch.init rfl rfl) rfl⟩

/-- Claim C1 counterexample: a chunk whose web record carries the present but
empty title renders with the hostname as its display title, not with the
empty title the claim prescribes. -/
theorem c1_title_counterexample :
    specSources [{ web := some { uri := "https://a.com", title := some "" } }] =
      [{ uri := "https://a.com", displayTitle := "" }] ∧
    renderedSources [{ web := some { uri := "https://a.com", title := some "" } }] =
      [{ uri := "https://a.com", displayTitle := "a.com" }] ∧
    renderedSources [{ web := some { uri := "https://a.com", title := some "" } }] ≠
      specSources [{ web := some { uri := "https://a.com", title := some "" } }] := by
  refine ⟨by decide, by decide, by decide⟩

/-- Unfolding of the rendered source list over one chunk. -/
theorem renderedSources_cons (c : GroundingChunk) (rest : List GroundingChunk) :
    renderedSources (c :: rest) =
      match renderSource c with
      | some r => r :: renderedSources rest
      | none => renderedSources rest := by
  cases h : renderSource c <;> simp [renderedSources, h]

/-- Claim C1 (amended): the rendered grounding sources are exactly the chunks
carrying a web link, in input order, and each display title is the chunk
title when it is present and non-empty, otherwise the host name of the URL. -/
theorem c1_sources_amended (chunks : List GroundingChunk) :
    renderedSources chunks = amendedSources chunks ∧
    (renderedSources chunks).length =
      (chunks.filter (fun c => c.web.isSome)).length := by
  induction chunks with
  | nil => exact ⟨rfl, rfl⟩
  | cons c rest ih =>
    cases hw : c.web with
    | none =>
      rw [renderedSources_cons]
      simp only [renderSource, hw, amendedSources, List.filter_cons]
      simp only [Option.isSome_none, Bool.false_eq_true, if_false]
      exact ih
    | some w =>
      rw [renderedSources_cons]
      simp only [renderSource, hw, amendedSources, List.filter_cons]
      simp only [Option.isSome_some, if_true, List.length_cons]
      refine ⟨?_, by rw [ih.2]⟩
      have ht : displayTitleOf w = amendedDisplayTitle w := rfl
      rw [ht, ih.1]

/-- A whitespace character is not an asterisk, a hash or a dash. -/
theorem jsSpace_facts (c : Char) (h : jsIsSpace c = true) :
    ¬c = '*' ∧ ¬c = '#' ∧ ¬c = '-' := by
  simp [jsIsSpace] at h
  rcases h with ((((rfl | rfl) | rfl) | rfl) | rfl) | rfl <;>
    exact ⟨by decide, by decide, by decide⟩

/-- Bold stripping leaves a line starting with a non-asterisk character
intact at its head. -/
theorem removeBold_cons_ne (b : Char) (hb : ¬b = '*') (rest : List Char) :
    removeBold (b :: rest) = b :: removeBold rest := by
  cases rest with
  | nil => rfl
  | cons r t => simp [removeBold, hb]

/-- Bold stripping removes only asterisks: the count of every other
character is preserved. -/
theorem countCh_removeBold (c : Char) (hc : ¬c = '*') (l : List Char) :
    countCh c (removeBold l) = countCh c l := by
  induction l using removeBold.induct with
  | case1 => rfl
  | case2 d => rfl
  | case3 a b rest h ih =>
    have hab : a = '*' ∧ b = '*' := by simpa using h
    obtain ⟨rfl, rfl⟩ := hab
    have hne : ¬('*' : Char) = c := fun hx => hc hx.symm
    simp [removeBold, h, countCh, hne, ih]
  | case4 a b rest h ih =>
    simp [removeBold, h, countCh, ih]

/-- Bold stripping is the identity on a line with no two adjacent
asterisks. -/
theorem removeBold_of_noDouble (l : List Char) :
    noDouble l = true → removeBold l = l := by
  induction l using removeBold.induct with
  | case1 => intro _; rfl
  | case2 d => intro _; rfl
  | case3 a b rest h ih =>
    intro hnd
    exfalso
    simp [noDouble, h] at hnd
  | case4 a b rest h ih =>
    intro hnd
    have h' : noDouble (b :: rest) = true := by
      simp [noDouble] at hnd
      exact hnd.2
    simp [removeBold, h, ih h']

/-- Extending a line with a safe head keeps it free of adjacent asterisk
pairs. -/
theorem noDouble_cons_of (a : Char) (w : List Char)
    (h : (a = '*') = false ∨ w.head? ≠ some '*') (hw : noDouble w = true) :
    noDouble (a :: w) = true := by
  cases w with
  | nil => rfl
  | cons y z =>
    have hy : (a = '*' && y = '*') = false := by
      cases h with
      | inl h1 => simp [h1]
      | inr h2 =>
        have hyne : ¬y = '*' := by simpa using h2
        simp [hyne]
    simp [noDouble, hy, hw]

/-- The output of bold stripping has no two adjacent asterisks left. -/
theorem noDouble_removeBold (l : List Char) : noDouble (removeBold l) = true := by
  induction l using removeBold.induct with
  | case1 => rfl
  | case2 d => rfl
  | case3 a b rest h ih => simpa [removeBold, h] using ih
  | case4 a b rest h ih =>
    have hstep : removeBold (a :: b :: rest) = a :: removeBold (b :: rest) := by
      simp [removeBold, h]
    rw [hstep]
    apply noDouble_cons_of
    · by_cases hA : (a = '*') = true
      · right
        have ha : a = '*' := by simpa using hA
        have hb : ¬b = '*' := by
          intro hb
          exact absurd (by simp [ha, hb] : (a = '*' && b = '*') = true)
            (by simpa using h)
        rw [removeBold_cons_ne b hb rest]
        simpa using hb
      · left
        simpa using hA
    · exact ih

/-- Dropping a leading run of whitespace preserves the hash count. -/
theorem countCh_hash_dropWhile (l : List Char) :
    countCh '#' (l.dropWhile jsIsSpace) = countCh '#' l := by
  induction l with
  | nil => rfl
  | cons c t ih =>
    by_cases h : jsIsSpace c = true
    · have hne : ¬c = '#' := (jsSpace_facts c h).2.1
      simp [List.dropWhile_cons, h, ih, countCh, hne]
    · simp [List.dropWhile_cons, h]

/-- Bullet stripping preserves the hash count. -/
theorem countCh_hash_stripBullet (l : List Char) :
    countCh '#' (stripBullet l) = countCh '#' l := by
  cases l with
  | nil => rfl
  | cons c rest =>
    by_cases h : (c = '*' || c = '-') = true
    · have hne : ¬c = '#' := by
        rcases (by simpa using h : c = '*' ∨ c = '-') with rfl | rfl <;> decide
      simp [stripBullet, h, countCh_hash_dropWhile, countCh, hne]
    · simp [stripBullet, h]

/-- Hash stripping removes every hash. -/
theorem countCh_removeHash (l : List Char) : countCh '#' (removeHash l) = 0 := by
  induction l with
  | nil => rfl
  | cons c t ih =>
    by_cases h : c = '#'
    · simpa [removeHash, List.filter_cons, h] using ih
    · simpa [removeHash, List.filter_cons, h, countCh] using ih

/-- Claim C2 counterexample: a line with leading whitespace before the
bullet is classified as a list item, but its content keeps the bullet
marker: the anchored replace does not fire, so the content equals the whole
line, not the line with the bullet stripped. -/
theorem c2_bullet_counterexample :
    classifyLine ("  - Sunny".toList) = Block.listItem ("  - Sunny".toList) ∧
    "  - Sunny".toList ≠ "Sunny".toList ∧
    "  - Sunny".toList ≠ "  Sunny".toList ∧
    ("  - Sunny".toList).contains '-' = true := by
  exact ⟨by decide, by decide, by decide, by decide⟩

/-- Claim C2 (amended): a line whose trimmed form starts with a bullet (and
which does not start untrimmed with a double asterisk or a hash) becomes a
ListItem; the leading bullet marker and the whitespace after it are stripped
only when the bullet is the first character of the line, while a line with
leading whitespace before the bullet keeps its content whole, with only the
double-asterisk markers removed. -/
theorem c2_listitem_amended :
    (∀ (b : Char) (rest : List Char),
      (b = '-' ∨ (b = '*' ∧ rest.head? ≠ some '*')) →
      classifyLine (b :: rest) =
        Block.listItem (removeBold (rest.dropWhile jsIsSpace))) ∧
    (∀ (c : Char) (rest : List Char), jsIsSpace c = true →
      bulletAfterTrim (c :: rest) = true →
      classifyLine (c :: rest) = Block.listItem (removeBold (c :: rest))) := by
  constructor
  · intro b rest hb
    rcases hb with rfl | ⟨rfl, hr⟩
    · have h1 : startsDoubleStar ('-' :: rest) = false := by
        cases rest <;> simp [startsDoubleStar]
      have h2 : startsHash ('-' :: rest) = false := by simp [startsHash]
      have h3 : bulletAfterTrim ('-' :: rest) = true := by
        have hws : jsIsSpace '-' = false := by decide
        simp [bulletAfterTrim, List.dropWhile_cons, hws]
      have h4 : stripBullet ('-' :: rest) = rest.dropWhile jsIsSpace := by
        simp [stripBullet]
      simp [classifyLine, h1, h2, h3, h4]
    · have h1 : startsDoubleStar ('*' :: rest) = false := by
        cases rest with
        | nil => rfl
        | cons r t =>
          have hrne : ¬r = '*' := by simpa using hr
          simp [startsDoubleStar, hrne]
      have h2 : startsHash ('*' :: rest) = false := by simp [startsHash]
      have h3 : bulletAfterTrim ('*' :: rest) = true := by
        have hws : jsIsSpace '*' = false := by decide
        simp [bulletAfterTrim, List.dropWhile_cons, hws]
      have h4 : stripBullet ('*' :: rest) = rest.dropWhile jsIsSpace := by
        simp [stripBullet]
      simp [classifyLine, h1, h2, h3, h4]
  · intro c rest hc hb
    obtain ⟨hstar, hhash, hdash⟩ := jsSpace_facts c hc
    have hds : startsDoubleStar (c :: rest) = false := by
      cases rest <;> simp [startsDoubleStar, hstar]
    have hsh : startsHash (c :: rest) = false := by simp [startsHash, hhash]
    have hsb : stripBullet (c :: rest) = c :: rest := by
      simp [stripBullet, hstar, hdash]
    simp [classifyLine, hds, hsh, hb, hsb]

/-- Witness for the amended C2: a bullet at the line start is stripped, a
bullet behind leading whitespace is kept. -/
theorem c2_listitem_amended_witness :
    classifyLine ('-' :: " Sunny".toList) =
      Block.listItem (removeBold (" Sunny".toList.dropWhile jsIsSpace)) ∧
    classifyLine (' ' :: " - Sunny".toList) =
      Block.listItem (removeBold (' ' :: " - Sunny".toList)) :=
  ⟨c2_listitem_amended.1 '-' (" Sunny".toList) (Or.inl rfl),
    c2_listitem_amended.2 ' ' (" - Sunny".toList) (by decide) (by decide)⟩

/-- Claim C10: in ListItem and Paragraph lines only the double-asterisk
pairs (and, for ListItem, the leading bullet) are stripped: every character
other than an asterisk, in particular every hash, keeps its occurrence
count, and a line without adjacent asterisks is kept verbatim; a Heading
line has every double-asterisk pair and then every hash removed, so its
content has no hash and the bold-stripped line no adjacent asterisks. -/
theorem c10_strip_scope (l content : List Char) :
    (classifyLine l = Block.para content →
      content = removeBold l ∧
      countCh '#' content = countCh '#' l ∧
      (noDouble l = true → content = l)) ∧
    (classifyLine l = Block.listItem content →
      content = removeBold (stripBullet l) ∧
      countCh '#' content = countCh '#' l ∧
      (noDouble (stripBullet l) = true → content = stripBullet l)) ∧
    (classifyLine l = Block.heading content →
      content = removeHash (removeBold l) ∧
      countCh '#' content = 0 ∧
      noDouble (removeBold l) = true) := by
  refine ⟨?_, ?_, ?_⟩
  · intro h
    unfold classifyLine at h
    split_ifs at h <;> simp at h
    subst h
    exact ⟨rfl, countCh_removeBold '#' (by decide) l,
      fun hnd => removeBold_of_noDouble l hnd⟩
  · intro h
    unfold classifyLine at h
    split_ifs at h <;> simp at h
    subst h
    refine ⟨rfl, ?_, fun hnd => removeBold_of_noDouble _ hnd⟩
    rw [countCh_removeBold '#' (by decide), countCh_hash_stripBullet]
  · intro h
    unfold classifyLine at h
    split_ifs at h <;> simp at h
    subst h
    exact ⟨rfl, countCh_removeHash (removeBold l), noDouble_removeBold l⟩

/-- Witness for C10 on one paragraph line, one list line and one heading
line. -/
theorem c10_strip_scope_witness :
    ("a*b#c".toList = removeBold ("a*b#c".toList) ∧
      countCh '#' ("a*b#c".toList) = countCh '#' ("a*b#c".toList) ∧
      "a*b#c".toList = "a*b#c".toList) ∧
    ("a#*b".toList = removeBold (stripBullet ("- a#*b".toList)) ∧
      countCh '#' ("a#*b".toList) = countCh '#' ("- a#*b".toList) ∧
      "a#*b".toList = stripBullet ("- a#*b".toList)) ∧
    ("T".toList = removeHash (removeBold ("**T#**".toList)) ∧
      countCh '#' ("T".toList) = 0 ∧
      noDouble (removeBold ("**T#**".toList)) = true) := by
  refine ⟨?_, ?_, ?_⟩
  · have h := (c10_strip_scope ("a*b#c".toList) ("a*b#c".toList)).1 (by decide)
    exact ⟨h.1, h.2.1, h.2.2 (by decide)⟩
  · have h := (c10_strip_scope ("- a#*b".toList) ("a#*b".toList)).2.1 (by decide)
    exact ⟨h.1, h.2.1, h.2.2 (by decide)⟩
  · exact (c10_strip_scope ("**T#**".toList) ("T".toList)).2.2 (by decide)

end Weather
